import Mathlib

/-!
Verification of `src/awsInspectorReporter/aws-inspector-report.js` (AWS
Inspector Vulnerability Report Generator).

The script is a sequence of external-process invocations, JSON reshaping and
interactive prompts.  The development below embeds its pure core:

* the data model of an Inspector finding as the script reads it
  (`Finding` and its nested optional sub-objects);
* the CSV serializer `convertToCsv` (source lines 229-306), split into the
  per-finding row builder `findingToRow`, the comma substitution applied to
  remediation text (line 276), and the generic escaping pass (lines 292-305);
* profile discovery `getAwsProfiles` (lines 26-68), with the two JavaScript
  regex scans modelled character by character;
* the region catalog `getAwsRegions` (lines 75-112) with its fallback list;
* finding retrieval `getInspectorFindings` (lines 160-222), with the two
  filter commands of each scenario modelled as structured records of the
  JSON filter criteria embedded in the CLI strings;
* the availability probe `isInspectorAvailableInRegion` (lines 335-348).

JavaScript `undefined`/missing fields become `Option.none`; the JavaScript
truthiness test `x || '-'` on a string field becomes `orDash` (the empty
string is falsy in JavaScript, so it also maps to `"-"`).  Effectful calls
(`exec`, file reads) are passed in as explicit arguments: a promise that can
reject becomes `Except String _`.
-/

namespace AwsInspector

/-- EPSS sub-object; the script reads `epss.score` (line 274). -/
structure Epss where
  score : Option String
  deriving DecidableEq

/-- The `cvss` sub-object of `vulnerabilityDetails`.  The script only reads
`cvss.cweIds` (line 249); the `epss` field is part of the external data model
and is included so that the spec's claimed `vulnerability-details/cvss/epss`
read path can be stated — the script itself never reads it. -/
structure Cvss where
  cweIds : Option (List String)
  epss : Option Epss
  deriving DecidableEq

/-- `packageVulnerabilityDetails.vulnerabilityDetails` (lines 247-248, 274). -/
structure VulnerabilityDetails where
  cvss : Option Cvss
  epss : Option Epss
  deriving DecidableEq

/-- `finding.packageVulnerabilityDetails` (lines 243, 247, 272). -/
structure PackageVulnerabilityDetails where
  vulnerabilityId : Option String
  vulnerabilityDetails : Option VulnerabilityDetails
  deriving DecidableEq

/-- `resource.details.awsEcrContainerImage` (lines 260-266). -/
structure EcrContainerImage where
  registry : Option String
  repositoryName : Option String
  imageId : Option String
  imageOs : Option String
  imageTags : Option (List String)
  pushedAt : Option String
  deriving DecidableEq

/-- `resource.details` (line 260). -/
structure ResourceDetails where
  awsEcrContainerImage : Option EcrContainerImage
  deriving DecidableEq

/-- One entry of `finding.resources` (lines 244, 277-278). -/
structure Resource where
  type : Option String
  id : Option String
  details : Option ResourceDetails
  deriving DecidableEq

/-- `remediation.recommendation` (lines 254-255). -/
structure Recommendation where
  text : Option String
  deriving DecidableEq

/-- `finding.remediation` (line 254). -/
structure Remediation where
  recommendation : Option Recommendation
  deriving DecidableEq

/-- An Inspector finding, with exactly the fields the script reads.  A missing
`resources` array and an empty one behave identically at line 244, so both are
modelled as `[]`. -/
structure Finding where
  awsAccountId : Option String
  severity : Option String
  packageVulnerabilityDetails : Option PackageVulnerabilityDetails
  exploitAvailable : Option String
  remediation : Option Remediation
  resources : List Resource
  deriving DecidableEq

/-- The JavaScript pattern `x || '-'` for an optional string field: absent and
empty-string (both falsy) render as `"-"` (lines 261-266, 270-275, 277-278). -/
def orDash : Option String → String
  | some s => if s = "" then "-" else s
  | none => "-"

/-- The CSV header row (lines 233-238). -/
def headers : List String :=
  ["AWS Account ID", "Severity", "CVE ID", "CWEs", "EPSS Score",
   "Exploit Available", "Remediation",
   "Resource Type", "Resource ID", "Registry", "Repository Name",
   "Image ID", "Image OS", "Image Tags", "Pushed At"]

/-- Default remediation sentence (line 253). -/
def defaultRemediation : String :=
  "Upgrade your installed software packages to the proposed fixed version and release."

/-- Remediation text selection (lines 253-256): the recommendation text is
used only when present and truthy (non-empty); otherwise the default
sentence. -/
def remediationTextOf (finding : Finding) : String :=
  match (finding.remediation.bind Remediation.recommendation).bind Recommendation.text with
  | some t => if t = "" then defaultRemediation else t
  | none => defaultRemediation

/-- `vulnerability.vulnerabilityDetails` with the `|| {}` guards of
lines 243 and 247 folded into `Option.bind`. -/
def vulnDetailsOf (finding : Finding) : Option VulnerabilityDetails :=
  finding.packageVulnerabilityDetails.bind PackageVulnerabilityDetails.vulnerabilityDetails

/-- The EPSS Score cell (line 274):
`vulnerabilityDetails.epss ? (vulnerabilityDetails.epss.score || '-') : '-'`.
Note the read path is `packageVulnerabilityDetails.vulnerabilityDetails.epss`;
the `cvss` sub-object is not on it. -/
def epssCellOf (finding : Finding) : String :=
  match (vulnDetailsOf finding).bind VulnerabilityDetails.epss with
  | some e => orDash e.score
  | none => "-"

/-- `remediationText.replace(/,/g, ';')` (line 276): every comma becomes a
semicolon, one character for one character. -/
def commaToSemi (c : Char) : Char :=
  if c = ',' then ';' else c

/-- String-level comma substitution of line 276. -/
def replaceCommas (s : String) : String :=
  String.mk (s.data.map commaToSemi)

/-- Character membership, modelling JavaScript `String.prototype.includes`
with a single-character pattern (line 301). -/
def containsChar : List Char → Char → Bool
  | [], _ => false
  | d :: rest, c => if d = c then true else containsChar rest c

/-- `cellStr.includes(c)` for a single character `c`. -/
def strContains (s : String) (c : Char) : Bool :=
  containsChar s.data c

/-- `cellStr.replace(/"/g, '""')` (line 302): every double quote doubled. -/
def doubleQuotes : List Char → List Char
  | [] => []
  | c :: rest => if c = '"' then '"' :: '"' :: doubleQuotes rest else c :: doubleQuotes rest

/-- The generic escaping pass for one cell (lines 298-304): a cell containing
a comma, double quote, newline or carriage return is wrapped in double quotes
with embedded double quotes doubled; any other cell passes through unchanged.
(The null/undefined branch of lines 294-296 is unreachable for cells built by
`findingToRow`, which always yields strings.) -/
def escapeCell (cellStr : String) : String :=
  if strContains cellStr ',' || strContains cellStr '"' ||
     strContains cellStr '\n' || strContains cellStr '\r' then
    String.mk ('"' :: doubleQuotes cellStr.data ++ ['"'])
  else cellStr

/-- The 15-cell data row for one finding (lines 241-286), in source order. -/
def findingToRow (finding : Finding) : List String :=
  let vulnerability := finding.packageVulnerabilityDetails
  let resource := finding.resources.head?
  let cvss := (vulnDetailsOf finding).bind VulnerabilityDetails.cvss
  let cweList := (cvss.bind Cvss.cweIds).getD []
  let cweString := if cweList.length > 0 then String.intercalate ", " cweList else "-"
  let ecr := (resource.bind Resource.details).bind ResourceDetails.awsEcrContainerImage
  let registry := match ecr with
    | some e => orDash e.registry
    | none => "-"
  let repositoryName := match ecr with
    | some e => orDash e.repositoryName
    | none => "-"
  let imageId := match ecr with
    | some e => orDash e.imageId
    | none => "-"
  let imageOs := match ecr with
    | some e => orDash e.imageOs
    | none => "-"
  let imageTags := match ecr with
    | some e =>
        let joined := String.intercalate "; " (e.imageTags.getD [])
        if joined = "" then "-" else joined
    | none => "-"
  let pushedAt := match ecr with
    | some e => orDash e.pushedAt
    | none => "-"
  [orDash finding.awsAccountId,
   orDash finding.severity,
   orDash (vulnerability.bind PackageVulnerabilityDetails.vulnerabilityId),
   cweString,
   epssCellOf finding,
   orDash finding.exploitAvailable,
   replaceCommas (remediationTextOf finding),
   orDash (resource.bind Resource.type),
   orDash (resource.bind Resource.id),
   registry,
   repositoryName,
   imageId,
   imageOs,
   imageTags,
   pushedAt]

/-- A data row after the escaping pass of lines 292-305. -/
def serializedRow (finding : Finding) : List String :=
  (findingToRow finding).map escapeCell

/-- `convertToCsv` (lines 229-306): `null` for an empty findings list,
otherwise header row plus one escaped row per finding, cells joined with
commas and rows with newlines. -/
def convertToCsv (findings : List Finding) : Option String :=
  if findings.length = 0 then none
  else
    some (String.intercalate "\n"
      ((headers :: findings.map findingToRow).map
        (fun row => String.intercalate "," (row.map escapeCell))))

/-- A finding in which every optional field is absent. -/
def emptyFinding : Finding :=
  { awsAccountId := none
    severity := none
    packageVulnerabilityDetails := none
    exploitAvailable := none
    remediation := none
    resources := [] }

/-!
Profile discovery (`getAwsProfiles`, lines 26-68).

The two regex scans `\[(.*?)\]` (credentials file, line 43) and
`\[profile (.*?)\]` (config file, line 54) are modelled character by
character: at an opening position the lazy group captures everything up to
the first `]`, the JavaScript `.` matching neither `\n` nor `\r`; on a failed
candidate the scan resumes one character later, after a successful match it
resumes past the closing `]` (the regex `lastIndex`).
-/

/-- Capture of a lazy `(.*?)\]` group: the characters up to the first `]`,
and the rest of the input after that `]`; fails if a line break or the end of
input comes first (JavaScript `.` does not match line terminators). -/
def scanContent : List Char → Option (List Char × List Char)
  | [] => none
  | c :: rest =>
    if c = ']' then some ([], rest)
    else if c = '\n' || c = '\r' then none
    else
      match scanContent rest with
      | some (content, rest') => some (c :: content, rest')
      | none => none

/-- All captures of `/\[(.*?)\]/g` over the input, fuelled by the input
length (each step consumes at least one character, so full fuel is enough). -/
def bracketMatchesAux : Nat → List Char → List (List Char)
  | 0, _ => []
  | _, [] => []
  | Nat.succ n, c :: rest =>
    if c = '[' then
      match scanContent rest with
      | some (content, rest') => content :: bracketMatchesAux n rest'
      | none => bracketMatchesAux n rest
    else bracketMatchesAux n rest

/-- Captures of `/\[(.*?)\]/g` (credentials file scan, lines 43-48). -/
def bracketMatches (l : List Char) : List (List Char) :=
  bracketMatchesAux l.length l

/-- All captures of `/\[profile (.*?)\]/g`, fuelled by the input length. -/
def profileHeaderMatchesAux : Nat → List Char → List (List Char)
  | 0, _ => []
  | _, [] => []
  | Nat.succ n, c :: rest =>
    if "[profile ".data.isPrefixOf (c :: rest) then
      match scanContent ((c :: rest).drop 9) with
      | some (content, rest') => content :: profileHeaderMatchesAux n rest'
      | none => profileHeaderMatchesAux n rest
    else profileHeaderMatchesAux n rest

/-- Captures of `/\[profile (.*?)\]/g` (config file scan, lines 54-59). -/
def profileHeaderMatches (l : List Char) : List (List Char) :=
  profileHeaderMatchesAux l.length l

/-- JavaScript `Set` insertion: keep the first occurrence, preserve order. -/
def addUnique (l : List String) (x : String) : List String :=
  if l.contains x then l else l ++ [x]

/-- `Array.from(new Set(...))` over an insertion sequence (lines 38, 47, 58, 62). -/
def dedupList (l : List String) : List String :=
  l.foldl addUnique []

/-- `getAwsProfiles` (lines 26-68).  The effectful parts are passed in:
`homeDir` is `process.env.HOME || process.env.USERPROFILE` (line 30), and each
file argument is `some content` when the file exists and `none` when it does
not (lines 41, 52).  When no home directory can be determined the function
throws, and the promise rejects with that error (lines 31-33, 63-66). -/
def getAwsProfiles (homeDir : Option String)
    (credentialsFile configFile : Option String) : Except String (List String) :=
  match homeDir with
  | none => Except.error "Could not determine home directory"
  | some _ =>
    let fromCredentials := match credentialsFile with
      | some content => (bracketMatches content.data).map String.mk
      | none => []
    let fromConfig := match configFile with
      | some content => (profileHeaderMatches content.data).map String.mk
      | none => []
    Except.ok (dedupList (fromCredentials ++ fromConfig))

/-!
Region catalog (`getAwsRegions`, lines 75-112).
-/

/-- The hardcoded fallback list (lines 83-89 and 101-107). -/
def defaultRegions : List String :=
  ["us-east-1", "us-east-2", "us-west-1", "us-west-2",
   "ap-south-1", "ap-northeast-3", "ap-northeast-2", "ap-southeast-1",
   "ap-southeast-2", "ap-northeast-1", "ca-central-1", "eu-central-1",
   "eu-west-1", "eu-west-2", "eu-west-3", "eu-north-1",
   "sa-east-1"]

/-- `getAwsRegions` (lines 75-112).  `execResult` is the outcome of the
`aws ec2 describe-regions` call (`Except.error` for a non-zero exit);
`parseJson` stands for `JSON.parse` specialised to a string array, `none`
meaning a parse exception.  Every path resolves; the promise never rejects. -/
def getAwsRegions (parseJson : String → Option (List String))
    (execResult : Except String String) : List String :=
  match execResult with
  | Except.error _ => defaultRegions
  | Except.ok stdout =>
    match parseJson stdout with
    | some regions => regions
    | none => defaultRegions

/-!
Finding retrieval (`getInspectorFindings`, lines 160-222).

The six CLI command strings built in the `switch` of lines 169-187 differ
only in the JSON `--filter-criteria` payload and all carry
`--max-results 100`; they are modelled as records of that payload.
-/

/-- One filter entry `{"comparison":"EQUALS","value":...}`. -/
structure FilterCriterion where
  comparison : String
  value : String
  deriving DecidableEq

/-- `{"comparison":"EQUALS","value":v}`. -/
def eqCrit (v : String) : FilterCriterion :=
  { comparison := "EQUALS", value := v }

/-- The `--filter-criteria` JSON object: `findingStatus` and `severity` are
always present; `exploitAvailable` only for finding type '1'. -/
structure FilterCriteria where
  findingStatus : List FilterCriterion
  severity : List FilterCriterion
  exploitAvailable : Option (List FilterCriterion)
  deriving DecidableEq

/-- One `inspector2 list-findings` command: filter criteria plus the
`--max-results` argument. -/
structure ListFindingsCommand where
  filterCriteria : FilterCriteria
  maxResults : Nat
  deriving DecidableEq

/-- Line 171: ACTIVE, CRITICAL, exploit available. -/
def priorityActiveCriticalCommand : ListFindingsCommand :=
  { filterCriteria :=
      { findingStatus := [eqCrit "ACTIVE"], severity := [eqCrit "CRITICAL"],
        exploitAvailable := some [eqCrit "YES"] },
    maxResults := 100 }

/-- Line 173: ACTIVE, HIGH, exploit available. -/
def priorityActiveHighCommand : ListFindingsCommand :=
  { filterCriteria :=
      { findingStatus := [eqCrit "ACTIVE"], severity := [eqCrit "HIGH"],
        exploitAvailable := some [eqCrit "YES"] },
    maxResults := 100 }

/-- Line 176: ACTIVE, CRITICAL. -/
def allActiveCriticalCommand : ListFindingsCommand :=
  { filterCriteria :=
      { findingStatus := [eqCrit "ACTIVE"], severity := [eqCrit "CRITICAL"],
        exploitAvailable := none },
    maxResults := 100 }

/-- Line 178: ACTIVE, HIGH. -/
def allActiveHighCommand : ListFindingsCommand :=
  { filterCriteria :=
      { findingStatus := [eqCrit "ACTIVE"], severity := [eqCrit "HIGH"],
        exploitAvailable := none },
    maxResults := 100 }

/-- Line 181: CLOSED, CRITICAL. -/
def allClosedCriticalCommand : ListFindingsCommand :=
  { filterCriteria :=
      { findingStatus := [eqCrit "CLOSED"], severity := [eqCrit "CRITICAL"],
        exploitAvailable := none },
    maxResults := 100 }

/-- Line 183: CLOSED, HIGH. -/
def allClosedHighCommand : ListFindingsCommand :=
  { filterCriteria :=
      { findingStatus := [eqCrit "CLOSED"], severity := [eqCrit "HIGH"],
        exploitAvailable := none },
    maxResults := 100 }

/-- The `switch (findingType)` of lines 169-187: the critical and high
commands for a scenario, or the `Invalid finding type` error of line 186. -/
def commandPair (findingType : String) :
    Except String (ListFindingsCommand × ListFindingsCommand) :=
  match findingType with
  | "1" => Except.ok (priorityActiveCriticalCommand, priorityActiveHighCommand)
  | "2" => Except.ok (allActiveCriticalCommand, allActiveHighCommand)
  | "3" => Except.ok (allClosedCriticalCommand, allClosedHighCommand)
  | _ => Except.error "Invalid finding type"

/-- The parsed JSON of one `list-findings` call; the `findings` key may be
absent (the guards at lines 198 and 207). -/
structure FindingsResponse where
  findings : Option (List Finding)
  deriving DecidableEq

/-- The two sequential `runAwsCommand` calls of lines 194-210, given the
already-selected command pair: critical first, then high, each failure
propagating (the `await` rethrows); the result list is the critical findings
followed by the high findings, each contributing nothing when its `findings`
key is absent.  The first component records the commands actually issued, in
order. -/
def runPair (runner : ListFindingsCommand → Except String FindingsResponse)
    (criticalCommand highCommand : ListFindingsCommand) :
    List ListFindingsCommand × Except String (List Finding) :=
  match runner criticalCommand with
  | Except.error e => ([criticalCommand], Except.error e)
  | Except.ok criticalFindings =>
    let allFindings := match criticalFindings.findings with
      | some fs => fs
      | none => []
    match runner highCommand with
    | Except.error e => ([criticalCommand, highCommand], Except.error e)
    | Except.ok highFindings =>
      let allFindings := match highFindings.findings with
        | some fs => allFindings ++ fs
        | none => allFindings
      ([criticalCommand, highCommand], Except.ok allFindings)

/-- `getInspectorFindings` (lines 160-222) with the issued-command trace:
build the command pair for the finding type, then run both queries in
order. -/
def getInspectorFindingsT
    (runner : ListFindingsCommand → Except String FindingsResponse)
    (findingType : String) :
    List ListFindingsCommand × Except String (List Finding) :=
  match commandPair findingType with
  | Except.error e => ([], Except.error e)
  | Except.ok (criticalCommand, highCommand) =>
    runPair runner criticalCommand highCommand

/-- `getInspectorFindings` (lines 160-222): the returned findings list. -/
def getInspectorFindings
    (runner : ListFindingsCommand → Except String FindingsResponse)
    (findingType : String) : Except String (List Finding) :=
  (getInspectorFindingsT runner findingType).2

/-!
Availability probe (`isInspectorAvailableInRegion`, lines 335-348).
-/

/-- Occurrence of `pat` anywhere in the input, modelling JavaScript
`String.prototype.includes` (line 342). -/
def strIncludesAux (pat : List Char) : List Char → Bool
  | [] => pat.isPrefixOf []
  | c :: rest => pat.isPrefixOf (c :: rest) || strIncludesAux pat rest

/-- `s.includes(pat)`. -/
def strIncludes (s pat : String) : Bool :=
  strIncludesAux pat.data s.data

/-- `isInspectorAvailableInRegion` (lines 335-348), as a function of the
outcome of the probe call `inspector2 list-findings --max-results 1`:
`true` on success; on failure, `true` exactly when the error message contains
`AccessDenied` or `UnauthorizedOperation`, else `false`. -/
def isInspectorAvailableInRegion (callResult : Except String Unit) : Bool :=
  match callResult with
  | Except.ok _ => true
  | Except.error msg =>
    strIncludes msg "AccessDenied" || strIncludes msg "UnauthorizedOperation"

/-!
Spec-worded definitions used for refinement comparisons.
-/

/-- Modelled from the spec: the EPSS Score cell "taken from the nested
vulnerability-details/cvss/epss path", yielding `"-"` whenever any level of
that path is absent; the score value itself rendered as in the source. -/
def epssCellSpecCvssPath (finding : Finding) : String :=
  match finding.packageVulnerabilityDetails with
  | none => "-"
  | some pv =>
    match pv.vulnerabilityDetails with
    | none => "-"
    | some vd =>
      match vd.cvss with
      | none => "-"
      | some c =>
        match c.epss with
        | none => "-"
        | some e => orDash e.score

/-- The amended reading: the EPSS Score cell taken from the nested
vulnerability-details/epss path — the `cvss` sub-object is not traversed —
yielding `"-"` whenever any level of that path is absent. -/
def epssCellSpecDirectPath (finding : Finding) : String :=
  match finding.packageVulnerabilityDetails with
  | none => "-"
  | some pv =>
    match pv.vulnerabilityDetails with
    | none => "-"
    | some vd =>
      match vd.epss with
      | none => "-"
      | some e => orDash e.score

/-- A finding whose `cvss` sub-object carries an EPSS score while the
`vulnerabilityDetails.epss` field the script actually reads is absent. -/
def cvssPathFinding : Finding :=
  { emptyFinding with
    packageVulnerabilityDetails := some
      { vulnerabilityId := none
        vulnerabilityDetails := some
          { cvss := some { cweIds := none, epss := some { score := some "0.97558" } }
            epss := none } } }

/-- A finding whose remediation text contains a comma and no double quote. -/
def commaFinding : Finding :=
  { emptyFinding with
    remediation := some
      { recommendation := some { text := some "Update the kernel, then reboot" } } }

/-- A finding whose remediation text contains a double quote. -/
def quoteFinding : Finding :=
  { emptyFinding with
    remediation := some
      { recommendation := some { text := some "Run \"apt upgrade\" now" } } }

/-!
Helper lemmas about the comma substitution and the escaping pass.
-/

theorem commaToSemi_ne_comma (d : Char) : commaToSemi d ≠ ',' := by
  unfold commaToSemi
  by_cases hd : d = ','
  · rw [if_pos hd]; decide
  · rw [if_neg hd]; exact hd

theorem containsChar_map_commaToSemi_comma (l : List Char) :
    containsChar (l.map commaToSemi) ',' = false := by
  induction l with
  | nil => rfl
  | cons d rest ih =>
    simp [List.map, containsChar, commaToSemi_ne_comma d, ih]

theorem containsChar_map_commaToSemi_of_ne (l : List Char) (c : Char)
    (h1 : c ≠ ',') (h2 : c ≠ ';') :
    containsChar (l.map commaToSemi) c = containsChar l c := by
  induction l with
  | nil => rfl
  | cons d rest ih =>
    by_cases hd : d = ','
    · subst hd
      simp [List.map, containsChar, commaToSemi, Ne.symm h1, Ne.symm h2, ih]
    · have hkeep : commaToSemi d = d := by rw [commaToSemi, if_neg hd]
      simp [List.map, containsChar, hkeep, ih]

theorem strContains_replaceCommas_comma (t : String) :
    strContains (replaceCommas t) ',' = false :=
  containsChar_map_commaToSemi_comma t.data

theorem strContains_replaceCommas_of_ne (t : String) (c : Char)
    (h1 : c ≠ ',') (h2 : c ≠ ';') :
    strContains (replaceCommas t) c = strContains t c :=
  containsChar_map_commaToSemi_of_ne t.data c h1 h2

/-!
Claims.
-/

/-- Claim C1, counterexample: for `emptyFinding` — every optional field
absent — the data row is not fifteen `"-"` placeholders: the Remediation cell
holds the default sentence of source line 253. -/
theorem empty_finding_row_not_all_dashes :
    findingToRow emptyFinding ≠ List.replicate 15 "-" := by decide

/-- Claim C1 (amended): for a finding in which all optional fields are
absent, fourteen of the fifteen cells equal the placeholder `"-"`, while the
Remediation cell equals the fixed default sentence; the escaping pass leaves
the row unchanged. -/
theorem empty_finding_row_cells :
    findingToRow emptyFinding =
      ["-", "-", "-", "-", "-", "-", defaultRemediation,
       "-", "-", "-", "-", "-", "-", "-", "-"]
    ∧ serializedRow emptyFinding = findingToRow emptyFinding
    ∧ defaultRemediation ≠ "-" := by decide

/-- Claim C2, counterexample: on a finding carrying an EPSS score under the
`cvss` sub-object but none at `vulnerabilityDetails.epss`, the script's cell
is `"-"` while the spec's claimed vulnerability-details/cvss/epss path would
yield the score, so the cell is not taken from that path. -/
theorem epss_cell_cvss_path_mismatch :
    epssCellOf cvssPathFinding = "-"
    ∧ epssCellSpecCvssPath cvssPathFinding = "0.97558"
    ∧ epssCellOf cvssPathFinding ≠ epssCellSpecCvssPath cvssPathFinding := by decide

/-- Claim C2 (amended): for every finding the EPSS Score cell is taken from
the nested vulnerability-details/epss path — without a `cvss` level — and
equals `"-"` whenever any level of that path is absent. -/
theorem epss_cell_path (f : Finding) :
    epssCellOf f = epssCellSpecDirectPath f := by
  unfold epssCellOf epssCellSpecDirectPath vulnDetailsOf
  cases f.packageVulnerabilityDetails with
  | none => rfl
  | some pv =>
    dsimp only [Option.bind]
    cases pv.vulnerabilityDetails with
    | none => rfl
    | some vd =>
      dsimp only [Option.bind]
      cases vd.epss with
      | none => rfl
      | some e => rfl

/-- Claim C5, counterexample: with no determinable home directory, profile
discovery rejects with an error; it does not resolve with an empty profile
list. -/
theorem profiles_no_home_rejects :
    getAwsProfiles none none none = Except.error "Could not determine home directory"
    ∧ getAwsProfiles none none none ≠ Except.ok [] :=
  ⟨rfl, fun h => Except.noConfusion h⟩

/-- Claim C5 (amended): when the home directory cannot be determined, profile
discovery raises an error to the caller (the promise rejects); a missing
credentials or config file contributes zero profiles and is not an error. -/
theorem profiles_no_home_error_missing_files_empty
    (credentialsFile configFile : Option String) (home : String) :
    getAwsProfiles none credentialsFile configFile =
      Except.error "Could not determine home directory"
    ∧ getAwsProfiles (some home) none none = Except.ok [] :=
  ⟨rfl, rfl⟩

/-- Claim C6: for any failure of the region query — non-zero exit or
unparsable output — the region catalog returns exactly the fixed fallback
list of 17 region identifiers in fixed order; the function is total, so no
error ever reaches the caller. -/
theorem region_catalog_fallback (parseJson : String → Option (List String))
    (errorMessage stdout : String) (hparse : parseJson stdout = none) :
    getAwsRegions parseJson (Except.error errorMessage) = defaultRegions
    ∧ getAwsRegions parseJson (Except.ok stdout) = defaultRegions
    ∧ defaultRegions =
      ["us-east-1", "us-east-2", "us-west-1", "us-west-2",
       "ap-south-1", "ap-northeast-3", "ap-northeast-2", "ap-southeast-1",
       "ap-southeast-2", "ap-northeast-1", "ca-central-1", "eu-central-1",
       "eu-west-1", "eu-west-2", "eu-west-3", "eu-north-1",
       "sa-east-1"]
    ∧ defaultRegions.length = 17 := by
  refine ⟨rfl, ?_, rfl, rfl⟩
  simp [getAwsRegions, hparse]

/-- Witness for claim C6 at a concrete failing parse and exit. -/
theorem region_catalog_fallback_witness :
    getAwsRegions (fun _ => none) (Except.error "exit 255") = defaultRegions
    ∧ getAwsRegions (fun _ => none) (Except.ok "not json") = defaultRegions :=
  ⟨(region_catalog_fallback (fun _ => none) "exit 255" "not json" rfl).1,
   (region_catalog_fallback (fun _ => none) "exit 255" "not json" rfl).2.1⟩

/-- Claim C8: a credentials file with headers `[dev]` and `[prod]` and a
config file with header `[profile stage]` yield exactly the profile set
containing dev, prod and stage, duplicate-free. -/
theorem profile_discovery_example :
    getAwsProfiles (some "/home/user") (some "[dev]\n[prod]") (some "[profile stage]") =
      Except.ok ["dev", "prod", "stage"]
    ∧ (["dev", "prod", "stage"] : List String).toFinset = {"dev", "prod", "stage"}
    ∧ (["dev", "prod", "stage"] : List String).Nodup :=
  ⟨rfl, by decide, by decide⟩

/-- Claim C10: for every finding without a remediation recommendation text,
the Remediation cell equals the fixed default sentence (unchanged by the
comma-to-semicolon substitution, as it contains no comma) and not the `"-"`
placeholder used for every other absent field. -/
theorem missing_remediation_default (f : Finding)
    (h : (f.remediation.bind Remediation.recommendation).bind Recommendation.text = none) :
    replaceCommas (remediationTextOf f) = defaultRemediation
    ∧ (findingToRow f)[6]? = some defaultRemediation
    ∧ defaultRemediation ≠ "-" := by
  have ht : remediationTextOf f = defaultRemediation := by
    unfold remediationTextOf; rw [h]
  have hr : replaceCommas defaultRemediation = defaultRemediation := by decide
  refine ⟨by rw [ht, hr], ?_, by decide⟩
  have hcell : (findingToRow f)[6]? = some (replaceCommas (remediationTextOf f)) := rfl
  rw [hcell, ht, hr]

/-- Witness for claim C10 at the concrete all-absent finding. -/
theorem missing_remediation_default_witness :
    replaceCommas (remediationTextOf emptyFinding) = defaultRemediation
    ∧ defaultRemediation ≠ "-" :=
  ⟨(missing_remediation_default emptyFinding rfl).1,
   (missing_remediation_default emptyFinding rfl).2.2⟩

/-- Claim C3: for scenario "all-active" (finding type '2'), retrieval issues
exactly the two ACTIVE-status queries, CRITICAL then HIGH in that order, and
when both succeed the result is the critical findings concatenated before the
high findings. -/
theorem all_active_queries_and_order
    (runner : ListFindingsCommand → Except String FindingsResponse)
    (criticalResults highResults : List Finding)
    (hcrit : runner allActiveCriticalCommand =
      Except.ok { findings := some criticalResults })
    (hhigh : runner allActiveHighCommand =
      Except.ok { findings := some highResults }) :
    (getInspectorFindingsT runner "2").1 =
      [allActiveCriticalCommand, allActiveHighCommand]
    ∧ allActiveCriticalCommand.filterCriteria.findingStatus = [eqCrit "ACTIVE"]
    ∧ allActiveHighCommand.filterCriteria.findingStatus = [eqCrit "ACTIVE"]
    ∧ allActiveCriticalCommand.filterCriteria.severity = [eqCrit "CRITICAL"]
    ∧ allActiveHighCommand.filterCriteria.severity = [eqCrit "HIGH"]
    ∧ (getInspectorFindingsT runner "2").2 =
      Except.ok (criticalResults ++ highResults) := by
  refine ⟨?_, rfl, rfl, rfl, rfl, ?_⟩ <;>
    simp [getInspectorFindingsT, commandPair, runPair, hcrit, hhigh]

/-- Witness for claim C3 with a concrete runner answering each of the two
queries. -/
theorem all_active_queries_and_order_witness :
    (getInspectorFindingsT
      (fun cmd =>
        if cmd.filterCriteria.severity = [eqCrit "CRITICAL"]
        then Except.ok { findings := some [emptyFinding] }
        else Except.ok { findings := some [] }) "2").2 =
      Except.ok ([emptyFinding] ++ []) :=
  (all_active_queries_and_order
    (fun cmd =>
      if cmd.filterCriteria.severity = [eqCrit "CRITICAL"]
      then Except.ok { findings := some [emptyFinding] }
      else Except.ok { findings := some [] })
    [emptyFinding] [] rfl rfl).2.2.2.2.2

/-- Claim C4: the availability probe is true when the underlying call
succeeds, true when it fails with a message carrying an access-denied or
unauthorized signal, and false for every other failure. -/
theorem availability_probe_cases (msg : String) :
    isInspectorAvailableInRegion (Except.ok ()) = true
    ∧ ((strIncludes msg "AccessDenied" = true ∨
        strIncludes msg "UnauthorizedOperation" = true) →
        isInspectorAvailableInRegion (Except.error msg) = true)
    ∧ (strIncludes msg "AccessDenied" = false →
        strIncludes msg "UnauthorizedOperation" = false →
        isInspectorAvailableInRegion (Except.error msg) = false) := by
  refine ⟨rfl, ?_, ?_⟩
  · rintro (h | h) <;> simp [isInspectorAvailableInRegion, h]
  · intro h1 h2
    simp [isInspectorAvailableInRegion, h1, h2]

/-- Witness for claim C4 at a concrete access-denied message and a concrete
connection failure. -/
theorem availability_probe_cases_witness :
    isInspectorAvailableInRegion
      (Except.error "AWS CLI error: An error occurred AccessDeniedException") = true
    ∧ isInspectorAvailableInRegion
      (Except.error "AWS CLI error: Could not connect to the endpoint URL") = false :=
  ⟨(availability_probe_cases "AWS CLI error: An error occurred AccessDeniedException").2.1
      (Or.inl (by decide)),
   (availability_probe_cases "AWS CLI error: Could not connect to the endpoint URL").2.2
      (by decide) (by decide)⟩

/-- Claim C7: the remediation cell of the serialized row is the escaped
comma-substituted text; a text containing a comma but no double quote or line
break yields an unquoted cell with every comma turned into a semicolon, and a
text containing a double quote yields a cell wrapped in double quotes with
embedded double quotes doubled. -/
theorem remediation_cell_escaping (f : Finding) (t : String)
    (ht : remediationTextOf f = t) :
    (serializedRow f)[6]? = some (escapeCell (replaceCommas t))
    ∧ (strContains t ',' = true → strContains t '"' = false →
       strContains t '\n' = false → strContains t '\r' = false →
         escapeCell (replaceCommas t) = replaceCommas t
         ∧ (replaceCommas t).data = t.data.map commaToSemi
         ∧ strContains (replaceCommas t) ',' = false)
    ∧ (strContains t '"' = true →
         strContains (replaceCommas t) '"' = true
         ∧ escapeCell (replaceCommas t) =
             String.mk ('"' :: doubleQuotes (replaceCommas t).data ++ ['"'])) := by
  subst ht
  refine ⟨rfl, ?_, ?_⟩
  · intro hc hq hn hcr
    have h1 := strContains_replaceCommas_comma (remediationTextOf f)
    have h2 : strContains (replaceCommas (remediationTextOf f)) '"' = false := by
      rw [strContains_replaceCommas_of_ne _ _ (by decide) (by decide)]; exact hq
    have h3 : strContains (replaceCommas (remediationTextOf f)) '\n' = false := by
      rw [strContains_replaceCommas_of_ne _ _ (by decide) (by decide)]; exact hn
    have h4 : strContains (replaceCommas (remediationTextOf f)) '\r' = false := by
      rw [strContains_replaceCommas_of_ne _ _ (by decide) (by decide)]; exact hcr
    refine ⟨?_, rfl, h1⟩
    simp [escapeCell, h1, h2, h3, h4]
  · intro hq
    have h2 : strContains (replaceCommas (remediationTextOf f)) '"' = true := by
      rw [strContains_replaceCommas_of_ne _ _ (by decide) (by decide)]; exact hq
    refine ⟨h2, ?_⟩
    simp [escapeCell, h2]

/-- Witness for claim C7 at the two concrete remediation texts. -/
theorem remediation_cell_escaping_witness :
    escapeCell (replaceCommas "Update the kernel, then reboot") =
      replaceCommas "Update the kernel, then reboot"
    ∧ strContains (replaceCommas "Run \"apt upgrade\" now") '"' = true :=
  ⟨((remediation_cell_escaping commaFinding "Update the kernel, then reboot" rfl).2.1
      (by decide) (by decide) (by decide) (by decide)).1,
   ((remediation_cell_escaping quoteFinding "Run \"apt upgrade\" now" rfl).2.2
      (by decide)).1⟩

/-- If every successful query of the runner honours its `--max-results`
bound, a successful run of the two-query pair returns at most the sum of the
two bounds. -/
theorem runPair_length_le
    (runner : ListFindingsCommand → Except String FindingsResponse)
    (criticalCommand highCommand : ListFindingsCommand)
    (found : List Finding)
    (hcap : ∀ cmd resp, runner cmd = Except.ok resp →
      ∀ fs, resp.findings = some fs → fs.length ≤ cmd.maxResults)
    (hrun : (runPair runner criticalCommand highCommand).2 = Except.ok found) :
    found.length ≤ criticalCommand.maxResults + highCommand.maxResults := by
  unfold runPair at hrun
  cases h1 : runner criticalCommand with
  | error e => rw [h1] at hrun; exact absurd hrun (by simp)
  | ok r1 =>
    rw [h1] at hrun
    cases h2 : runner highCommand with
    | error e => rw [h2] at hrun; exact absurd hrun (by simp)
    | ok r2 =>
      rw [h2] at hrun
      simp only [Except.ok.injEq] at hrun
      have b1 : (match r1.findings with
          | some fs => fs
          | none => ([] : List Finding)).length ≤ criticalCommand.maxResults := by
        cases hf : r1.findings with
        | none => exact Nat.zero_le _
        | some fs => exact hcap criticalCommand r1 h1 fs hf
      have b2 : found.length ≤ (match r1.findings with
          | some fs => fs
          | none => ([] : List Finding)).length + highCommand.maxResults := by
        cases hf : r2.findings with
        | none =>
          rw [hf] at hrun
          subst hrun
          exact Nat.le_add_right _ _
        | some fs =>
          rw [hf] at hrun
          subst hrun
          rw [List.length_append]
          exact Nat.add_le_add_left (hcap highCommand r2 h2 fs hf) _
      exact le_trans b2 (Nat.add_le_add_right b1 _)

/-- Claim C9: for each scenario id '1', '2', '3' both underlying queries
carry `--max-results 100`; consequently, for a runner that honours the bound,
a successful retrieval returns at most 200 findings. -/
theorem max_results_caps_findings
    (runner : ListFindingsCommand → Except String FindingsResponse)
    (findingType : String) (found : List Finding)
    (hft : findingType = "1" ∨ findingType = "2" ∨ findingType = "3")
    (hcap : ∀ cmd resp, runner cmd = Except.ok resp →
      ∀ fs, resp.findings = some fs → fs.length ≤ cmd.maxResults)
    (hrun : getInspectorFindings runner findingType = Except.ok found) :
    (∀ c h, commandPair findingType = Except.ok (c, h) →
      c.maxResults = 100 ∧ h.maxResults = 100)
    ∧ found.length ≤ 200 := by
  rcases hft with h | h | h
  · subst h
    refine ⟨?_, ?_⟩
    · intro c h hch
      simp only [commandPair, Except.ok.injEq, Prod.mk.injEq] at hch
      obtain ⟨hc, hh⟩ := hch
      subst hc; subst hh
      exact ⟨rfl, rfl⟩
    · exact runPair_length_le runner priorityActiveCriticalCommand
        priorityActiveHighCommand found hcap hrun
  · subst h
    refine ⟨?_, ?_⟩
    · intro c h hch
      simp only [commandPair, Except.ok.injEq, Prod.mk.injEq] at hch
      obtain ⟨hc, hh⟩ := hch
      subst hc; subst hh
      exact ⟨rfl, rfl⟩
    · exact runPair_length_le runner allActiveCriticalCommand
        allActiveHighCommand found hcap hrun
  · subst h
    refine ⟨?_, ?_⟩
    · intro c h hch
      simp only [commandPair, Except.ok.injEq, Prod.mk.injEq] at hch
      obtain ⟨hc, hh⟩ := hch
      subst hc; subst hh
      exact ⟨rfl, rfl⟩
    · exact runPair_length_le runner allClosedCriticalCommand
        allClosedHighCommand found hcap hrun

/-- Witness for claim C9 with a concrete bound-honouring runner. -/
theorem max_results_caps_findings_witness :
    ([] : List Finding).length ≤ 200 :=
  (max_results_caps_findings (fun _ => Except.ok { findings := some [] }) "2" []
    (Or.inr (Or.inl rfl))
    (by
      intro cmd resp hr fs hfs
      cases hr
      cases hfs
      exact Nat.zero_le _)
    rfl).2

end AwsInspector
